import Mathlib

/-!
Verification development for the PDF text-extraction comparison utility
(`pdf_extractor.py`).  The program runs two embedded-text-layer extractors
(PyMuPDF, pdfplumber) and an optional OCR extractor over a folder of PDF
files, writes one output text file per successful non-empty method per
input file, and writes an aggregate summary table.

The shallow embedding below models each Python function as a total Lean
function.  Calls into the external libraries (fitz, pdfplumber,
pytesseract, pdf2image) are modelled by behaviour values describing what
the library does on the given input: either it yields page contents, or
it raises an exception with a message at some point of the interaction.
File-system effects (directory creation, file writes) are modelled as
explicit data returned by the functions.
-/

namespace PdfCompare

/-- Characters removed by Python str.strip with no arguments
(the Python str.isspace character set). -/
def isPySpace (c : Char) : Bool :=
  c = ' ' || c = '\t' || c = '\n' || c = '\x0b' || c = '\x0c' || c = '\r' ||
  c = '\x1c' || c = '\x1d' || c = '\x1e' || c = '\x1f' ||
  c = '\x85' || c = '\xa0' || c = '\u1680' ||
  ('\u2000' ≤ c && c ≤ '\u200a') ||
  c = '\u2028' || c = '\u2029' || c = '\u202f' || c = '\u205f' || c = '\u3000'

/-- Python str.strip() on a character list: remove leading and trailing
whitespace. -/
def pyStripList (l : List Char) : List Char :=
  ((l.dropWhile isPySpace).reverse.dropWhile isPySpace).reverse

/-- Python s.strip(). -/
def pyStrip (s : String) : String := ⟨pyStripList s.data⟩

/-- Python sep.join(parts). -/
def pyJoin (sep : String) : List String → String
  | [] => ""
  | [t] => t
  | t :: rest => t ++ sep ++ pyJoin sep rest

/-- Python pdf_name.replace(".pdf", "") on the character list: scan left to
right and delete every (non-overlapping) occurrence of the substring
".pdf", continuing the scan after each deleted occurrence. -/
def removeDotPdf : List Char → List Char
  | '.' :: 'p' :: 'd' :: 'f' :: rest => removeDotPdf rest
  | c :: rest => c :: removeDotPdf rest
  | [] => []

/-- Python (".pdf" in s): whether the substring ".pdf" occurs in s. -/
def hasDotPdf : List Char → Bool
  | '.' :: 'p' :: 'd' :: 'f' :: _ => true
  | _ :: rest => hasDotPdf rest
  | [] => false

/-- Helper for Python {n:,} integer formatting: given the decimal digits in
reversed order, insert a comma after every group of three. -/
def groupRev : List Char → List Char
  | a :: b :: c :: d :: rest => a :: b :: c :: ',' :: groupRev (d :: rest)
  | ds => ds

/-- Python f-string {n:,}: decimal digits grouped in threes by commas. -/
def formatComma (n : Nat) : String := ⟨(groupRev (toString n).data.reverse).reverse⟩

/-- Python f-string left justification {s:<w} (pad on the right with
spaces to width w). -/
def padRight (w : Nat) (s : String) : String :=
  s ++ ⟨List.replicate (w - s.length) ' '⟩

/-- Python f-string right justification {s:>w}. -/
def padLeft (w : Nat) (s : String) : String :=
  ⟨List.replicate (w - s.length) ' '⟩ ++ s

/-- One entry of the result["pages"] list: a dict with keys "page", "text",
"char_count" and, for the pdfplumber extractor only, "table_count". -/
structure PageRec where
  page : Nat
  text : String
  char_count : Nat
  table_count : Option Nat := none
  deriving DecidableEq, Repr

/-- A table extracted by pdfplumber: rows of cells, a cell possibly None. -/
abbrev PdfTable := List (List (Option String))

/-- One entry of result["tables"] (pdfplumber only): the page number and
the tables found on that page. -/
structure TablesEntry where
  page : Nat
  tables : List PdfTable
  deriving DecidableEq, Repr

/-- The result dict built by each extractor.  The "tables" key exists only
in the pdfplumber result and the "note" key only in the OCR result; both
are modelled as Option fields that are none when the key is absent. -/
structure ExtractionResult where
  method : String
  text : String
  pages : List PageRec
  success : Bool
  error : Option String
  tables : Option (List TablesEntry) := none
  note : Option String := none
  deriving DecidableEq, Repr

/-- Behaviour of the fitz (PyMuPDF) library on one call of
extract_with_pymupdf:
 - openErr: fitz.open raises with the given message;
 - readErr: iteration / page.get_text yields the given page texts and then
   raises with the given message before the document is exhausted;
 - ok: every page is read, yielding the given texts, and doc.close
   afterwards raises the given message when closeErr is some. -/
inductive FitzBehavior where
  | openErr (msg : String)
  | readErr (pageTexts : List String) (msg : String)
  | ok (pageTexts : List String) (closeErr : Option String)
  deriving DecidableEq, Repr

/-- The pages list built by enumerate over the page texts: entry i carries
page number i+1, the text, and len(text). -/
def mkPages (texts : List String) : List PageRec :=
  texts.enum.map (fun it => { page := it.1 + 1, text := it.2, char_count := it.2.length })

/-- extract_with_pymupdf: open the document, walk the pages collecting
get_text output, join with a newline.  Any exception is caught and its
message stored in result["error"].  Note that result["success"] is set to
true before doc.close() runs, so a close-time exception leaves
success=true with the error message recorded. -/
def extract_with_pymupdf : FitzBehavior → ExtractionResult
  | .openErr msg =>
      { method := "PyMuPDF (직접 추출)", text := "", pages := [],
        success := false, error := some msg }
  | .readErr texts msg =>
      { method := "PyMuPDF (직접 추출)", text := "", pages := mkPages texts,
        success := false, error := some msg }
  | .ok texts closeErr =>
      { method := "PyMuPDF (직접 추출)", text := pyJoin "\n" texts,
        pages := mkPages texts, success := true, error := closeErr }

/-- What pdfplumber yields for one page: page.extract_text() (None when the
page has no text layer) and page.extract_tables(). -/
structure PlumberPage where
  text : Option String
  tables : List PdfTable
  deriving DecidableEq, Repr

/-- Behaviour of the pdfplumber library on one call of
extract_with_pdfplumber; readErr carries the pages fully processed before
the exception. -/
inductive PlumberBehavior where
  | openErr (msg : String)
  | readErr (pages : List PlumberPage) (msg : String)
  | ok (pages : List PlumberPage) (closeErr : Option String)
  deriving DecidableEq, Repr

/-- Python page.extract_text() or "": a None page text becomes the empty
string. -/
def plumberPageText (p : PlumberPage) : String := p.text.getD ""

/-- The pages list built by extract_with_pdfplumber: entry i has page
number i+1, the (defaulted) text, its length, and the table count. -/
def mkPlumberPages (ps : List PlumberPage) : List PageRec :=
  ps.enum.map (fun ip =>
    { page := ip.1 + 1, text := plumberPageText ip.2,
      char_count := (plumberPageText ip.2).length,
      table_count := some ip.2.tables.length })

/-- The tables list built by extract_with_pdfplumber: one entry per page
whose extract_tables() result is non-empty (Python list truthiness). -/
def mkPlumberTables (ps : List PlumberPage) : List TablesEntry :=
  ps.enum.filterMap (fun ip =>
    if ip.2.tables ≠ [] then some { page := ip.1 + 1, tables := ip.2.tables }
    else none)

/-- extract_with_pdfplumber: open the document in a with-block, walk the
pages collecting extract_text() or "" and extract_tables(), join the texts
with a newline.  Any exception is caught; as in the PyMuPDF case a
close-time (with-exit) exception happens after success was already set. -/
def extract_with_pdfplumber : PlumberBehavior → ExtractionResult
  | .openErr msg =>
      { method := "pdfplumber (직접 추출)", text := "", pages := [],
        tables := some [], success := false, error := some msg }
  | .readErr ps msg =>
      { method := "pdfplumber (직접 추출)", text := "",
        pages := mkPlumberPages ps, tables := some (mkPlumberTables ps),
        success := false, error := some msg }
  | .ok ps closeErr =>
      { method := "pdfplumber (직접 추출)",
        text := pyJoin "\n" (ps.map plumberPageText),
        pages := mkPlumberPages ps, tables := some (mkPlumberTables ps),
        success := true, error := closeErr }

/-- Behaviour of the pytesseract / pdf2image libraries on one call of
extract_with_ocr:
 - importErr: importing pytesseract or pdf2image raises ImportError;
 - convertErr: convert_from_path raises (missing poppler or bad PDF);
 - readErr: image_to_string raises after some pages were processed
   (caught by the generic except clause);
 - ok: every page image is OCRed, yielding the given texts. -/
inductive OcrBehavior where
  | importErr (msg : String)
  | convertErr (msg : String)
  | readErr (pageTexts : List String) (msg : String)
  | ok (pageTexts : List String)
  deriving DecidableEq, Repr

/-- The fixed note stored in the OCR result dict. -/
def ocrNote : String := "Tesseract OCR이 설치되어 있어야 합니다."

/-- extract_with_ocr: import the OCR libraries (ImportError caught with a
missing-library message), convert the PDF to images (failure caught by an
inner try with a poppler-specific message and an early return), then OCR
each image and join the texts with a newline.  The tesseract_cmd probing
of fixed Windows paths does not affect the returned dict and is not
modelled. -/
def extract_with_ocr : OcrBehavior → ExtractionResult
  | .importErr msg =>
      { method := "OCR (pytesseract)", text := "", pages := [],
        success := false,
        error := some ("필요한 라이브러리가 없습니다: " ++ msg),
        note := some ocrNote }
  | .convertErr msg =>
      { method := "OCR (pytesseract)", text := "", pages := [],
        success := false,
        error := some ("PDF를 이미지로 변환 실패 (poppler 필요): " ++ msg),
        note := some ocrNote }
  | .readErr texts msg =>
      { method := "OCR (pytesseract)", text := "", pages := mkPages texts,
        success := false, error := some msg, note := some ocrNote }
  | .ok texts =>
      { method := "OCR (pytesseract)", text := pyJoin "\n" texts,
        pages := mkPages texts, success := true, error := none,
        note := some ocrNote }

/-- compare_methods: run the PyMuPDF extractor, then the pdfplumber
extractor, and collect the results in the dict
{"pymupdf": ..., "pdfplumber": ...} (insertion order preserved).  The OCR
call is commented out in the source and hence absent.  In Lean every
extractor is a total function, which reflects that in the source each
extractor catches its exceptions, so one method failing never stops the
other from running. -/
def compare_methods (fb : FitzBehavior) (pb : PlumberBehavior) :
    List (String × ExtractionResult) :=
  [("pymupdf", extract_with_pymupdf fb), ("pdfplumber", extract_with_pdfplumber pb)]

/-- A file written by the program: its name (within the output directory)
and its full content. -/
structure WrittenFile where
  name : String
  content : String
  deriving DecidableEq, Repr

/-- base_name = pdf_name.replace(".pdf", ""). -/
def base_name (pdf_name : String) : String := ⟨removeDotPdf pdf_name.data⟩

/-- The output file name f"{base_name}_{method_name}.txt". -/
def outputFileName (pdf_name method_name : String) : String :=
  base_name pdf_name ++ "_" ++ method_name ++ ".txt"

/-- The content written to one output file: header lines (method, source
file, timestamp, comma-grouped character count, page count), a separator
of sixty equals signs, a blank line, then the extracted text. -/
def output_file_content (pdf_name now : String) (result : ExtractionResult) : String :=
  "# 추출 방법: " ++ result.method ++ "\n" ++
  "# 원본 파일: " ++ pdf_name ++ "\n" ++
  "# 추출 시간: " ++ now ++ "\n" ++
  "# 총 문자 수: " ++ formatComma result.text.length ++ "자\n" ++
  "# 총 페이지: " ++ toString result.pages.length ++ "페이지\n" ++
  ⟨List.replicate 60 '='⟩ ++ "\n\n" ++
  result.text

/-- save_results: for each (method_name, result) entry of the results dict
in order, write the output file exactly when result["success"] is true and
result["text"].strip() is truthy (non-empty); otherwise write nothing for
that entry.  Returns the written files in order.  The now argument stands
for datetime.now().isoformat(). -/
def save_results (now pdf_name : String)
    (results : List (String × ExtractionResult)) : List WrittenFile :=
  results.filterMap (fun mr =>
    if mr.2.success = true ∧ pyStrip mr.2.text ≠ "" then
      some { name := outputFileName pdf_name mr.1,
             content := output_file_content pdf_name now mr.2 }
    else none)

/-- Python d.get(k): first (unique) binding of k in the insertion-ordered
dict, modelled as an association list. -/
def pyDictLookup {α : Type} : List (String × α) → String → Option α
  | [], _ => none
  | (k, v) :: rest, key => if k = key then some v else pyDictLookup rest key

/-- Python d[k] = v on an insertion-ordered dict: an existing key keeps its
position and gets the new value; a new key is appended at the end. -/
def dictInsert {α : Type} : List (String × α) → String → α → List (String × α)
  | [], k, v => [(k, v)]
  | (k0, v0) :: rest, k, v =>
      if k0 = k then (k, v) :: rest else (k0, v0) :: dictInsert rest k v

/-- Python results.get(key, {}).get("text", ""): the text of the named
method, or "" when the method key is absent. -/
def resultText (results : List (String × ExtractionResult)) (key : String) : String :=
  match pyDictLookup results key with
  | some r => r.text
  | none => ""

/-- One row of the final summary table, as built in main: the possibly
truncated file name, the two character counts, and the formatted line
f"{short_name:<50} {pymupdf_chars:>12,} {pdfplumber_chars:>12,}\n". -/
structure SummaryRow where
  rendered_name : String
  pymupdf_chars : Nat
  pdfplumber_chars : Nat
  deriving DecidableEq, Repr

/-- short_name = pdf_name[:47] + "..." if len(pdf_name) > 50 else pdf_name. -/
def shortName (pdf_name : String) : String :=
  if pdf_name.length > 50 then ⟨pdf_name.data.take 47⟩ ++ "..." else pdf_name

/-- The summary row main writes for one entry of all_results. -/
def summaryRow (pdf_name : String)
    (results : List (String × ExtractionResult)) : SummaryRow :=
  { rendered_name := shortName pdf_name,
    pymupdf_chars := (resultText results "pymupdf").length,
    pdfplumber_chars := (resultText results "pdfplumber").length }

/-- The formatted table line for one summary row. -/
def summaryLine (row : SummaryRow) : String :=
  padRight 50 row.rendered_name ++ " " ++
  padLeft 12 (formatComma row.pymupdf_chars) ++ " " ++
  padLeft 12 (formatComma row.pdfplumber_chars) ++ "\n"

/-- The full content of the summary file 비교_요약.txt. -/
def summaryFileContent (now : String) (rows : List SummaryRow) : String :=
  "PDF 텍스트 추출 결과 비교\n" ++
  "추출 시간: " ++ now ++ "\n" ++
  ⟨List.replicate 80 '='⟩ ++ "\n\n" ++
  padRight 50 "파일명" ++ " " ++ padLeft 12 "PyMuPDF" ++ " " ++
  padLeft 12 "pdfplumber" ++ "\n" ++
  ⟨List.replicate 80 '-'⟩ ++ "\n" ++
  String.join (rows.map summaryLine) ++
  "\n\n주의사항:\n" ++
  "- 문자 수가 0이면 해당 PDF에 텍스트 레이어가 없거나 이미지 PDF입니다.\n" ++
  "- 이미지 PDF의 경우 OCR 방법을 사용해야 합니다.\n" ++
  "- OCR 사용을 위해서는 Tesseract와 poppler 설치가 필요합니다.\n"

/-- The environment main runs in: whether the fixed input directory
참고자료 exists, the .pdf file names its glob scan discovers (in discovery
order; names within one directory are distinct), the behaviour of each
extraction library per file name, and the datetime.now() timestamp. -/
structure Env where
  pdfDirExists : Bool
  pdfFiles : List String
  fitz : String → FitzBehavior
  plumber : String → PlumberBehavior
  now : String

/-- The observable outcome of one run of main: whether the output
directory 추출결과 was created, the per-method output files written (in
order), the rows of the summary table and the summary file (none when no
summary was written), the error line printed on an early return, and the
process exit code (the script never calls sys.exit, so a normal return of
main exits with 0). -/
structure MainOutcome where
  madeOutputDir : Bool
  outputs : List WrittenFile
  summaryRows : Option (List SummaryRow)
  summaryFile : Option WrittenFile
  errorMessage : Option String
  exitCode : Nat

/-- The all_results dict accumulated by the main loop, keyed by file
name. -/
def buildAllResults (env : Env) : List (String × List (String × ExtractionResult)) :=
  env.pdfFiles.foldl
    (fun acc name => dictInsert acc name (compare_methods (env.fitz name) (env.plumber name)))
    []

/-- main: report and return early when the input directory is missing or
holds no .pdf files (the output directory is not created and nothing is
written); otherwise create the output directory, run compare_methods and
save_results per file in discovery order, and finally write the summary
file with one table row per all_results entry. -/
def mainModel (env : Env) : MainOutcome :=
  if env.pdfDirExists = false then
    { madeOutputDir := false, outputs := [], summaryRows := none,
      summaryFile := none,
      errorMessage := some "오류: '참고자료' 폴더가 없습니다.",
      exitCode := 0 }
  else if env.pdfFiles = [] then
    { madeOutputDir := false, outputs := [], summaryRows := none,
      summaryFile := none,
      errorMessage := some "오류: '참고자료' 폴더에 PDF 파일이 없습니다.",
      exitCode := 0 }
  else
    let rows := (buildAllResults env).map (fun nr => summaryRow nr.1 nr.2)
    { madeOutputDir := true,
      outputs := env.pdfFiles.flatMap (fun name =>
        save_results env.now name (compare_methods (env.fitz name) (env.plumber name))),
      summaryRows := some rows,
      summaryFile := some { name := "비교_요약.txt",
                            content := summaryFileContent env.now rows },
      errorMessage := none,
      exitCode := 0 }

/-! ### Helper lemmas -/

/-- Output file names determine the method: the file name map is injective
in the method identifier for a fixed input file name. -/
theorem outputFileName_inj (p m m' : String)
    (h : outputFileName p m = outputFileName p m') : m = m' := by
  have hd := congrArg String.data h
  simp only [outputFileName, String.data_append] at hd
  have h1 := List.append_cancel_right hd
  have h2 := List.append_cancel_left h1
  cases m; cases m'
  exact congrArg String.mk h2

/-- Unfolding save_results over the first dict entry. -/
theorem save_results_cons (now p m0 : String) (r0 : ExtractionResult)
    (rest : List (String × ExtractionResult)) :
    save_results now p ((m0, r0) :: rest) =
      (if r0.success = true ∧ pyStrip r0.text ≠ "" then
        [{ name := outputFileName p m0,
           content := output_file_content p now r0 }] else []) ++
      save_results now p rest := by
  by_cases hc : r0.success = true ∧ pyStrip r0.text ≠ ""
  · simp only [save_results, List.filterMap_cons, if_pos hc, List.cons_append,
      List.nil_append]
  · simp only [save_results, List.filterMap_cons, if_neg hc, List.nil_append]

/-- No file in the save_results output carries the name of a method absent
from the results dict. -/
theorem countP_save_results_zero (now p m : String) :
    ∀ results : List (String × ExtractionResult),
      ¬ m ∈ results.map Prod.fst →
      List.countP (fun w => w.name == outputFileName p m)
        (save_results now p results) = 0
  | [], _ => rfl
  | (m0, r0) :: rest, h => by
      have hm0 : m0 ≠ m := by
        intro e
        exact h (by simp [e])
      have hrest : ¬ m ∈ rest.map Prod.fst := fun hh => h (by simp [hh])
      have ih := countP_save_results_zero now p m rest hrest
      rw [save_results_cons, List.countP_append, ih]
      by_cases hc : r0.success = true ∧ pyStrip r0.text ≠ ""
      · rw [if_pos hc]
        have hne : ¬ (outputFileName p m0 == outputFileName p m) = true := by
          simp only [beq_iff_eq]
          intro e
          exact hm0 (outputFileName_inj p m0 m e)
        simp [List.countP_cons, hne]
      · rw [if_neg hc]
        rfl

/-- Two basic unfoldings of pyJoin. -/
theorem pyJoin_one (sep t : String) : pyJoin sep [t] = t := rfl

/-- pyJoin on a list with at least two entries. -/
theorem pyJoin_cons2 (sep t r : String) (rs : List String) :
    pyJoin sep (t :: r :: rs) = t ++ sep ++ pyJoin sep (r :: rs) := rfl

/-- The no-substring fact is inherited by the tail. -/
theorem hasDotPdf_tail (c : Char) (l : List Char)
    (h : hasDotPdf (c :: l) = false) : hasDotPdf l = false := by
  rw [hasDotPdf.eq_def] at h
  split at h
  · exact absurd h (by simp)
  · rename_i x c' rest hno hne
    injection hne with h1 h2
    rw [h2]
    exact h
  · rename_i x heq
    exact absurd heq (by simp)

/-- When ".pdf" does not occur in c :: l, the removeDotPdf scan keeps the
head character c even after ".pdf" is appended to the string. -/
theorem removeDotPdf_cons_append (c : Char) (l : List Char)
    (h : hasDotPdf (c :: l) = false) :
    removeDotPdf (c :: (l ++ ['.', 'p', 'd', 'f'])) =
      c :: removeDotPdf (l ++ ['.', 'p', 'd', 'f']) := by
  rw [removeDotPdf.eq_def]
  split
  · rename_i rest heq
    exfalso
    obtain ⟨hc, hl⟩ := List.cons.inj heq
    subst hc
    cases l with
    | nil =>
        simp only [List.nil_append] at hl
        injection hl with h1 _
        exact absurd h1 (by decide)
    | cons a l1 =>
        simp only [List.cons_append] at hl
        injection hl with ha hl1
        cases l1 with
        | nil =>
            simp only [List.nil_append] at hl1
            injection hl1 with h1 _
            exact absurd h1 (by decide)
        | cons b l2 =>
            simp only [List.cons_append] at hl1
            injection hl1 with hb hl2
            cases l2 with
            | nil =>
                simp only [List.nil_append] at hl2
                injection hl2 with h1 _
                exact absurd h1 (by decide)
            | cons c2 l3 =>
                simp only [List.cons_append] at hl2
                injection hl2 with hc2 _
                subst ha hb hc2
                simp [hasDotPdf] at h
  · rename_i x c' rest hno heq
    injection heq with h1 h2
    rw [h1, h2]
  · rename_i x heq
    exact absurd heq (by simp)

/-- When ".pdf" does not occur in the stem, removing every ".pdf"
occurrence from stem ++ ".pdf" leaves exactly the stem. -/
theorem removeDotPdf_append_eq (stem : List Char)
    (h : hasDotPdf stem = false) :
    removeDotPdf (stem ++ ['.', 'p', 'd', 'f']) = stem := by
  induction stem with
  | nil => rfl
  | cons c l ih =>
      rw [List.cons_append, removeDotPdf_cons_append c l h,
        ih (hasDotPdf_tail c l h)]

/-- Inserting a fresh key into a dict appends it at the end. -/
theorem dictInsert_not_mem {α : Type} (k : String) (v : α) :
    ∀ d : List (String × α), ¬ k ∈ d.map Prod.fst →
      dictInsert d k v = d ++ [(k, v)]
  | [], _ => rfl
  | (k0, v0) :: rest, h => by
      have hk : k0 ≠ k := fun e => h (by simp [e])
      have := dictInsert_not_mem k v rest (fun hh => h (by simp [hh]))
      simp only [dictInsert, if_neg hk, List.cons_append, this]

/-- Folding dict insertions of pairwise distinct fresh keys over an
accumulator appends the corresponding bindings in order. -/
theorem foldl_dictInsert {α : Type} (f : String → α) :
    ∀ (files : List String) (acc : List (String × α)),
      files.Nodup → (∀ n ∈ files, ¬ n ∈ acc.map Prod.fst) →
      files.foldl (fun d n => dictInsert d n (f n)) acc =
        acc ++ files.map (fun n => (n, f n))
  | [], acc, _, _ => by simp
  | n :: rest, acc, hnd, hdisj => by
      rw [List.nodup_cons] at hnd
      rw [List.foldl_cons, dictInsert_not_mem n (f n) acc (hdisj n (by simp)),
        foldl_dictInsert f rest (acc ++ [(n, f n)]) hnd.2 ?_]
      · simp
      · intro x hx
        simp only [List.map_append, List.mem_append, List.map_cons,
          List.map_nil, List.mem_singleton]
        rintro (hxa | hxn)
        · exact hdisj x (by simp [hx]) hxa
        · exact hnd.1 (hxn ▸ hx)

/-- With pairwise distinct discovered file names, the all_results dict
lists one binding per file in discovery order. -/
theorem buildAllResults_eq (env : Env) (h : env.pdfFiles.Nodup) :
    buildAllResults env =
      env.pdfFiles.map (fun n => (n, compare_methods (env.fitz n) (env.plumber n))) := by
  unfold buildAllResults
  rw [foldl_dictInsert _ env.pdfFiles [] h (by simp)]
  simp

/-- Joining pages that are all empty produces a string of newlines only. -/
theorem pyJoin_all_empty_space (texts : List String)
    (h : ∀ t ∈ texts, t = "") :
    ∀ c ∈ (pyJoin "\n" texts).data, isPySpace c = true := by
  induction texts with
  | nil =>
      intro c hc
      rw [show pyJoin "\n" ([] : List String) = "" from rfl] at hc
      rw [show ("" : String).data = ([] : List Char) from rfl] at hc
      exact absurd hc (List.not_mem_nil c)
  | cons t rest ih =>
      cases rest with
      | nil =>
          intro c hc
          rw [pyJoin_one, h t (by simp)] at hc
          rw [show ("" : String).data = ([] : List Char) from rfl] at hc
          exact absurd hc (List.not_mem_nil c)
      | cons r rs =>
          intro c hc
          rw [pyJoin_cons2, h t (by simp)] at hc
          simp only [String.data_append, List.mem_append] at hc
          rcases hc with (hc | hc) | hc
          · exact absurd hc (List.not_mem_nil c)
          · have : c = '\n' := by simpa using hc
            rw [this]
            decide
          · exact ih (fun t ht => h t (by simp [ht])) c hc

/-- A string of whitespace characters only strips to the empty string. -/
theorem pyStrip_of_all_space (s : String)
    (h : ∀ c ∈ s.data, isPySpace c = true) : pyStrip s = "" := by
  unfold pyStrip pyStripList
  rw [List.dropWhile_eq_nil_iff.mpr h]
  rfl

/-- The pages list built from enumerated page texts satisfies the page
numbering and character count invariant. -/
theorem mkPages_spec (texts : List String) (i : Nat)
    (h : i < (mkPages texts).length) :
    ((mkPages texts)[i]).page = i + 1 ∧
    ((mkPages texts)[i]).char_count = ((mkPages texts)[i]).text.length := by
  have hlen : i < texts.length := by
    simpa [mkPages] using h
  simp [mkPages, List.getElem_enum]

/-- The pdfplumber pages list satisfies the same invariant. -/
theorem mkPlumberPages_spec (ps : List PlumberPage) (i : Nat)
    (h : i < (mkPlumberPages ps).length) :
    ((mkPlumberPages ps)[i]).page = i + 1 ∧
    ((mkPlumberPages ps)[i]).char_count = ((mkPlumberPages ps)[i]).text.length := by
  have hlen : i < ps.length := by
    simpa [mkPlumberPages] using h
  simp [mkPlumberPages, List.getElem_enum]

/-- With distinct method keys, the number of files save_results writes for
a given method entry is one when the entry succeeded with non-blank text
and zero otherwise. -/
theorem countP_save_results_mem (now p m : String) (r : ExtractionResult) :
    ∀ results : List (String × ExtractionResult),
      (m, r) ∈ results → (results.map Prod.fst).Nodup →
      List.countP (fun w => w.name == outputFileName p m)
          (save_results now p results) =
        if r.success = true ∧ pyStrip r.text ≠ "" then 1 else 0
  | [], hmem, _ => absurd hmem (List.not_mem_nil _)
  | (m0, r0) :: rest, hmem, hnd => by
      rw [List.map_cons, List.nodup_cons] at hnd
      rw [save_results_cons, List.countP_append]
      rcases List.mem_cons.mp hmem with heq | hmem2
      · injection heq with h1 h2
        subst h1
        subst h2
        rw [countP_save_results_zero now p m rest hnd.1]
        by_cases hc : r.success = true ∧ pyStrip r.text ≠ ""
        · rw [if_pos hc, if_pos hc]
          simp [List.countP_cons]
        · rw [if_neg hc, if_neg hc]
          simp
      · have hm0 : m0 ≠ m := by
          intro e
          apply hnd.1
          rw [e]
          exact List.mem_map.mpr ⟨(m, r), hmem2, rfl⟩
        have ih := countP_save_results_mem now p m r rest hmem2 hnd.2
        rw [ih]
        have hne : ((outputFileName p m0 == outputFileName p m) = false) := by
          rw [beq_eq_false_iff_ne]
          intro e
          exact hm0 (outputFileName_inj p m0 m e)
        by_cases hc : r0.success = true ∧ pyStrip r0.text ≠ ""
        · rw [if_pos hc]
          simp [List.countP_cons, hne]
        · rw [if_neg hc]
          simp

/-! ### The claims -/

/-- C1: for every results dict passed to save_results and every method
entry in it, an output file is written for that method if and only if the
entry succeeded and its text is non-empty after stripping whitespace, and
for such a method exactly one file is written; failed or blank entries
produce no file. -/
theorem claim_C1 (now pdf_name m : String) (r : ExtractionResult)
    (results : List (String × ExtractionResult))
    (hmem : (m, r) ∈ results) (hnodup : (results.map Prod.fst).Nodup) :
    List.countP (fun w => w.name == outputFileName pdf_name m)
        (save_results now pdf_name results) =
      (if r.success = true ∧ pyStrip r.text ≠ "" then 1 else 0) ∧
    ((∃ w ∈ save_results now pdf_name results,
        w.name = outputFileName pdf_name m) ↔
      (r.success = true ∧ pyStrip r.text ≠ "")) := by
  have haux := countP_save_results_mem now pdf_name m r results hmem hnodup
  refine ⟨haux, ?_, ?_⟩
  · rintro ⟨w, hw, hwn⟩
    by_contra hc
    rw [if_neg hc] at haux
    have := List.countP_eq_zero.mp haux w hw
    rw [hwn] at this
    exact this (by simp)
  · intro hc
    rw [if_pos hc] at haux
    have hpos : 0 < List.countP (fun w => w.name == outputFileName pdf_name m)
        (save_results now pdf_name results) := by omega
    obtain ⟨w, hw, hpw⟩ := List.countP_pos_iff.mp hpos
    exact ⟨w, hw, by simpa using hpw⟩

/-- A sample successful extraction result with non-blank text, used to
instantiate hypotheses at concrete inputs. -/
def sampleOk : ExtractionResult :=
  { method := "PyMuPDF (직접 추출)", text := "hello", pages := [],
    success := true, error := none }

/-- C1 witness: at a concrete results dict the theorem yields exactly one
written file for the successful method. -/
theorem claim_C1_witness :
    List.countP (fun w => w.name == outputFileName "a.pdf" "pymupdf")
        (save_results "T" "a.pdf" [("pymupdf", sampleOk)]) = 1 := by
  have h := (claim_C1 "T" "a.pdf" "pymupdf" sampleOk [("pymupdf", sampleOk)]
    (by simp) (by simp)).1
  rw [h, if_pos ⟨rfl, by decide⟩]

/-- C2: each text-layer extractor returns success=true when the library
interaction raises no exception, and on an exception at open or read time
returns success=false with the error field exactly the exception message;
the Comparator always obtains both results, so one method failing does not
prevent the other from running. -/
theorem claim_C2 (msg : String) (texts : List String) (ps : List PlumberPage)
    (fb : FitzBehavior) (pb : PlumberBehavior) :
    ((extract_with_pymupdf (.openErr msg)).success = false ∧
      (extract_with_pymupdf (.openErr msg)).error = some msg) ∧
    ((extract_with_pymupdf (.readErr texts msg)).success = false ∧
      (extract_with_pymupdf (.readErr texts msg)).error = some msg) ∧
    (extract_with_pymupdf (.ok texts none)).success = true ∧
    ((extract_with_pdfplumber (.openErr msg)).success = false ∧
      (extract_with_pdfplumber (.openErr msg)).error = some msg) ∧
    ((extract_with_pdfplumber (.readErr ps msg)).success = false ∧
      (extract_with_pdfplumber (.readErr ps msg)).error = some msg) ∧
    (extract_with_pdfplumber (.ok ps none)).success = true ∧
    pyDictLookup (compare_methods fb pb) "pymupdf" =
      some (extract_with_pymupdf fb) ∧
    pyDictLookup (compare_methods fb pb) "pdfplumber" =
      some (extract_with_pdfplumber pb) := by
  refine ⟨⟨rfl, rfl⟩, ⟨rfl, rfl⟩, rfl, ⟨rfl, rfl⟩, ⟨rfl, rfl⟩, rfl, ?_, ?_⟩
  · simp [compare_methods, pyDictLookup]
  · simp [compare_methods, pyDictLookup]

/-- C3 counterexample: the claim says only the trailing ".pdf" is
stripped, but for the input name "a.pdf.pdf" the code produces the output
name "a_pymupdf.txt" (every ".pdf" occurrence removed), not the claimed
"a.pdf_pymupdf.txt". -/
theorem claim_C3_counterexample :
    (save_results "T" "a.pdf.pdf" [("pymupdf", sampleOk)]).map
        WrittenFile.name = ["a_pymupdf.txt"] ∧
    ("a_pymupdf.txt" : String) ≠ "a.pdf_pymupdf.txt" := by
  constructor
  · decide
  · decide

/-- C3 (amended): the Persister names the output file by deleting every
occurrence of the substring ".pdf" from the input file name and appending
an underscore, the method identifier and ".txt"; when ".pdf" occurs in the
input name only as the trailing extension, the name is exactly
the input base name followed by the method suffix, the rest preserved. -/
theorem claim_C3 (now pdf_name stem m : String) (r : ExtractionResult)
    (results : List (String × ExtractionResult))
    (hmem : (m, r) ∈ results)
    (hcond : r.success = true ∧ pyStrip r.text ≠ "")
    (hstem : hasDotPdf stem.data = false) :
    ({ name := base_name pdf_name ++ "_" ++ m ++ ".txt",
       content := output_file_content pdf_name now r } : WrittenFile) ∈
      save_results now pdf_name results ∧
    base_name pdf_name = (⟨removeDotPdf pdf_name.data⟩ : String) ∧
    base_name (stem ++ ".pdf") = stem := by
  refine ⟨?_, rfl, ?_⟩
  · apply List.mem_filterMap.mpr
    refine ⟨(m, r), hmem, ?_⟩
    rw [if_pos hcond]
    rfl
  · unfold base_name
    have hd : (stem ++ ".pdf").data = stem.data ++ ['.', 'p', 'd', 'f'] := by
      rw [String.data_append]
    rw [hd, removeDotPdf_append_eq stem.data hstem]

/-- C3 witness: at a concrete input the amended naming theorem applies. -/
theorem claim_C3_witness :
    ({ name := "report_pymupdf.txt",
       content := output_file_content "report.pdf" "T" sampleOk } : WrittenFile) ∈
      save_results "T" "report.pdf" [("pymupdf", sampleOk)] ∧
    base_name ("report" ++ ".pdf") = "report" := by
  have h := claim_C3 "T" "report.pdf" "report" "pymupdf" sampleOk
    [("pymupdf", sampleOk)] (by simp) ⟨rfl, by decide⟩ (by decide)
  exact ⟨h.1, h.2.2⟩

/-- On the normal path the summary rows are exactly one per all_results
entry. -/
theorem mainModel_summaryRows (env : Env) (h1 : env.pdfDirExists = true)
    (h2 : env.pdfFiles ≠ []) :
    (mainModel env).summaryRows =
      some ((buildAllResults env).map (fun nr => summaryRow nr.1 nr.2)) := by
  unfold mainModel
  rw [h1]
  rw [if_neg (by simp), if_neg h2]

/-- C4: the summary table has exactly one row per discovered input file,
in discovery order, and each row's per-method integer is the length of
that method's extracted full text for that file. -/
theorem claim_C4 (env : Env) (h1 : env.pdfDirExists = true)
    (h2 : env.pdfFiles ≠ []) (h3 : env.pdfFiles.Nodup) :
    (mainModel env).summaryRows =
      some (env.pdfFiles.map (fun name =>
        summaryRow name (compare_methods (env.fitz name) (env.plumber name)))) ∧
    (∀ name fb pb,
      (summaryRow name (compare_methods fb pb)).pymupdf_chars =
        (extract_with_pymupdf fb).text.length ∧
      (summaryRow name (compare_methods fb pb)).pdfplumber_chars =
        (extract_with_pdfplumber pb).text.length) ∧
    (∀ rows, (mainModel env).summaryRows = some rows →
      rows.length = env.pdfFiles.length) := by
  have hmain := mainModel_summaryRows env h1 h2
  refine ⟨?_, ?_, ?_⟩
  · rw [hmain, buildAllResults_eq env h3, List.map_map]
    rfl
  · intro name fb pb
    exact ⟨rfl, rfl⟩
  · intro rows hrows
    rw [hmain, buildAllResults_eq env h3] at hrows
    have h := Option.some.inj hrows
    rw [← h, List.map_map, List.length_map]

/-- A concrete environment with one discovered file. -/
def envC4 : Env :=
  { pdfDirExists := true, pdfFiles := ["a.pdf"],
    fitz := fun _ => .ok ["x"] none, plumber := fun _ => .ok [] none,
    now := "T" }

/-- C4 witness: at a concrete environment the summary has exactly the one
expected row. -/
theorem claim_C4_witness :
    (mainModel envC4).summaryRows =
      some [{ rendered_name := "a.pdf", pymupdf_chars := 1,
              pdfplumber_chars := 0 }] := by
  have h := (claim_C4 envC4 rfl (by simp [envC4]) (by simp [envC4])).1
  rw [h]
  rfl

/-- C5: with the input directory missing or empty, main prints an error
and returns normally with exit code 0, creating no output directory and
writing neither per-file outputs nor the summary file. -/
theorem claim_C5 (env : Env)
    (h : env.pdfDirExists = false ∨ env.pdfFiles = []) :
    (mainModel env).madeOutputDir = false ∧
    (mainModel env).outputs = [] ∧
    (mainModel env).summaryRows = none ∧
    (mainModel env).summaryFile = none ∧
    (mainModel env).errorMessage.isSome = true ∧
    (mainModel env).exitCode = 0 := by
  rcases h with h | h
  · simp [mainModel, h]
  · cases hb : env.pdfDirExists
    · simp [mainModel, hb]
    · simp [mainModel, hb, h]

/-- A concrete environment whose input directory is missing. -/
def envC5 : Env :=
  { pdfDirExists := false, pdfFiles := [],
    fitz := fun _ => .openErr "e", plumber := fun _ => .openErr "e",
    now := "T" }

/-- C5 witness: the theorem applied to the missing-directory environment. -/
theorem claim_C5_witness :
    (mainModel envC5).madeOutputDir = false ∧
    (mainModel envC5).outputs = [] ∧
    (mainModel envC5).summaryRows = none ∧
    (mainModel envC5).summaryFile = none ∧
    (mainModel envC5).errorMessage.isSome = true ∧
    (mainModel envC5).exitCode = 0 :=
  claim_C5 envC5 (Or.inl rfl)

/-- C6: in the summary table a file name longer than 50 characters is
rendered as its first 47 characters plus "..." (exactly 50 characters),
and a name of at most 50 characters is rendered unchanged. -/
theorem claim_C6 (name : String) (results : List (String × ExtractionResult)) :
    (50 < name.length →
      (summaryRow name results).rendered_name =
        (⟨name.data.take 47⟩ : String) ++ "..." ∧
      ((summaryRow name results).rendered_name).length = 50) ∧
    (name.length ≤ 50 → (summaryRow name results).rendered_name = name) := by
  constructor
  · intro hlen
    have hr : (summaryRow name results).rendered_name =
        (⟨name.data.take 47⟩ : String) ++ "..." := by
      simp only [summaryRow]
      unfold shortName
      rw [if_pos hlen]
    refine ⟨hr, ?_⟩
    rw [hr, String.length_append]
    have hdl : name.length = name.data.length := rfl
    have h1 : (⟨name.data.take 47⟩ : String).length = 47 := by
      show (name.data.take 47).length = 47
      rw [List.length_take]
      omega
    rw [h1]
    rfl
  · intro hlen
    simp only [summaryRow]
    unfold shortName
    rw [if_neg (by omega)]

/-- A 60-character file name. -/
def longName : String := ⟨List.replicate 60 'x'⟩

/-- C6 witness: the truncation theorem at a long and a short concrete
name. -/
theorem claim_C6_witness :
    (summaryRow longName []).rendered_name =
      (⟨List.replicate 47 'x'⟩ : String) ++ "..." ∧
    ((summaryRow longName []).rendered_name).length = 50 ∧
    (summaryRow "a.pdf" []).rendered_name = "a.pdf" := by
  have h1 := (claim_C6 longName []).1 (by decide)
  have h2 := (claim_C6 "a.pdf" []).2 (by decide)
  exact ⟨h1.1, h1.2, h2⟩

/-- C7: on success each text-layer extractor's full text is the per-page
fragments joined with a newline in page order, a page with no library
text contributing "" (pdfplumber maps a None page text to ""); a document
whose pages all yield empty text gives success=true with a full text that
strips to the empty string, not an error. -/
theorem claim_C7 (texts : List String) (c1 c2 : Option String)
    (ps : List PlumberPage) (tbls : List PdfTable) :
    (extract_with_pymupdf (.ok texts c1)).text = pyJoin "\n" texts ∧
    (extract_with_pdfplumber (.ok ps c2)).text =
      pyJoin "\n" (ps.map plumberPageText) ∧
    plumberPageText { text := none, tables := tbls } = "" ∧
    ((∀ t ∈ texts, t = "") →
      (extract_with_pymupdf (.ok texts c1)).success = true ∧
      pyStrip (extract_with_pymupdf (.ok texts c1)).text = "") ∧
    ((∀ p ∈ ps, plumberPageText p = "") →
      (extract_with_pdfplumber (.ok ps c2)).success = true ∧
      pyStrip (extract_with_pdfplumber (.ok ps c2)).text = "") := by
  refine ⟨rfl, rfl, rfl, ?_, ?_⟩
  · intro h
    exact ⟨rfl, pyStrip_of_all_space _ (pyJoin_all_empty_space texts h)⟩
  · intro h
    refine ⟨rfl, pyStrip_of_all_space _ (pyJoin_all_empty_space _ ?_)⟩
    intro t ht
    obtain ⟨p, hp, rfl⟩ := List.mem_map.mp ht
    exact h p hp

/-- C7 witness: concrete no-text documents strip to the empty string. -/
theorem claim_C7_witness :
    pyStrip (extract_with_pymupdf (.ok ["", ""] none)).text = "" ∧
    pyStrip (extract_with_pdfplumber
      (.ok [{ text := none, tables := [] }] none)).text = "" := by
  refine ⟨((claim_C7 ["", ""] none none [] []).2.2.2.1 (by decide)).2,
          ((claim_C7 [] none none [{ text := none, tables := [] }] []).2.2.2.2
            (by decide)).2⟩

/-- Two strings with distinct head characters stay distinct under any
appended suffixes. -/
theorem append_ne_of_head_ne (a b : String) (c d : Char) (la lb : List Char)
    (ha : a.data = c :: la) (hb : b.data = d :: lb) (hcd : c ≠ d)
    (m1 m2 : String) : a ++ m1 ≠ b ++ m2 := by
  intro h
  have hd := congrArg String.data h
  simp only [String.data_append] at hd
  rw [ha, hb, List.cons_append, List.cons_append] at hd
  injection hd with h1 _
  exact hcd h1

/-- C8: the OCR extractor never raises; a missing library (ImportError)
yields success=false with the missing-library message, a failed PDF to
image conversion yields success=false with the distinct poppler runtime
message, and the two error messages never coincide. -/
theorem claim_C8 (m1 m2 : String) :
    ((extract_with_ocr (.importErr m1)).success = false ∧
      (extract_with_ocr (.importErr m1)).error =
        some ("필요한 라이브러리가 없습니다: " ++ m1)) ∧
    ((extract_with_ocr (.convertErr m2)).success = false ∧
      (extract_with_ocr (.convertErr m2)).error =
        some ("PDF를 이미지로 변환 실패 (poppler 필요): " ++ m2)) ∧
    (extract_with_ocr (.importErr m1)).error ≠
      (extract_with_ocr (.convertErr m2)).error := by
  refine ⟨⟨rfl, rfl⟩, ⟨rfl, rfl⟩, ?_⟩
  intro h
  have h2 := Option.some.inj h
  exact append_ne_of_head_ne
    "필요한 라이브러리가 없습니다: "
    "PDF를 이미지로 변환 실패 (poppler 필요): "
    '필' 'P'
    "요한 라이브러리가 없습니다: ".data
    "DF를 이미지로 변환 실패 (poppler 필요): ".data
    (by decide) (by decide) (by decide) m1 m2 h2

/-- C8 witness: at concrete equal underlying messages the two error
messages still differ. -/
theorem claim_C8_witness :
    (extract_with_ocr (.importErr "x")).error ≠
      (extract_with_ocr (.convertErr "x")).error :=
  (claim_C8 "x" "x").2.2

/-- C9: a failed extraction always carries the empty full text, so a
failed method shows character count 0 in the summary row, the same as a
successful extraction of an empty text layer. -/
theorem claim_C9 (fb : FitzBehavior) (pb : PlumberBehavior) (ob : OcrBehavior)
    (name : String) :
    ((extract_with_pymupdf fb).success = false →
      (extract_with_pymupdf fb).text = "") ∧
    ((extract_with_pdfplumber pb).success = false →
      (extract_with_pdfplumber pb).text = "") ∧
    ((extract_with_ocr ob).success = false →
      (extract_with_ocr ob).text = "") ∧
    ((extract_with_pymupdf fb).success = false →
      (summaryRow name (compare_methods fb pb)).pymupdf_chars = 0) ∧
    ((extract_with_pdfplumber pb).success = false →
      (summaryRow name (compare_methods fb pb)).pdfplumber_chars = 0) := by
  have h1 : (extract_with_pymupdf fb).success = false →
      (extract_with_pymupdf fb).text = "" := by
    cases fb with
    | openErr m => intro _; rfl
    | readErr t m => intro _; rfl
    | ok t c => intro h; exact absurd h (by simp [extract_with_pymupdf])
  have h2 : (extract_with_pdfplumber pb).success = false →
      (extract_with_pdfplumber pb).text = "" := by
    cases pb with
    | openErr m => intro _; rfl
    | readErr t m => intro _; rfl
    | ok t c => intro h; exact absurd h (by simp [extract_with_pdfplumber])
  have h3 : (extract_with_ocr ob).success = false →
      (extract_with_ocr ob).text = "" := by
    cases ob with
    | importErr m => intro _; rfl
    | convertErr m => intro _; rfl
    | readErr t m => intro _; rfl
    | ok t => intro h; exact absurd h (by simp [extract_with_ocr])
  refine ⟨h1, h2, h3, ?_, ?_⟩
  · intro h
    have hrw : (summaryRow name (compare_methods fb pb)).pymupdf_chars =
        (extract_with_pymupdf fb).text.length := rfl
    rw [hrw, h1 h]
    rfl
  · intro h
    have hrw : (summaryRow name (compare_methods fb pb)).pdfplumber_chars =
        (extract_with_pdfplumber pb).text.length := rfl
    rw [hrw, h2 h]
    rfl

/-- C9 witness: a concrete failed extraction has empty text and count 0. -/
theorem claim_C9_witness :
    (extract_with_pymupdf (.openErr "boom")).text = "" ∧
    (summaryRow "a.pdf"
      (compare_methods (.openErr "boom") (.openErr "boom"))).pymupdf_chars = 0 := by
  have h := claim_C9 (.openErr "boom") (.openErr "boom") (.importErr "x") "a.pdf"
  exact ⟨h.1 rfl, h.2.2.2.1 rfl⟩

/-- C10: in every result of the three extractors the i-th pages entry
(0-based) has page number i+1 and char_count equal to the length of its
text, so page numbers are consecutive from 1 in document order. -/
theorem claim_C10 (fb : FitzBehavior) (pb : PlumberBehavior)
    (ob : OcrBehavior) (i : Nat) :
    (∀ h : i < (extract_with_pymupdf fb).pages.length,
      ((extract_with_pymupdf fb).pages[i]).page = i + 1 ∧
      ((extract_with_pymupdf fb).pages[i]).char_count =
        ((extract_with_pymupdf fb).pages[i]).text.length) ∧
    (∀ h : i < (extract_with_pdfplumber pb).pages.length,
      ((extract_with_pdfplumber pb).pages[i]).page = i + 1 ∧
      ((extract_with_pdfplumber pb).pages[i]).char_count =
        ((extract_with_pdfplumber pb).pages[i]).text.length) ∧
    (∀ h : i < (extract_with_ocr ob).pages.length,
      ((extract_with_ocr ob).pages[i]).page = i + 1 ∧
      ((extract_with_ocr ob).pages[i]).char_count =
        ((extract_with_ocr ob).pages[i]).text.length) := by
  refine ⟨?_, ?_, ?_⟩
  · intro h
    cases fb with
    | openErr m => exact absurd h (by simp [extract_with_pymupdf])
    | readErr t m => exact mkPages_spec t i h
    | ok t c => exact mkPages_spec t i h
  · intro h
    cases pb with
    | openErr m => exact absurd h (by simp [extract_with_pdfplumber])
    | readErr t m => exact mkPlumberPages_spec t i h
    | ok t c => exact mkPlumberPages_spec t i h
  · intro h
    cases ob with
    | importErr m => exact absurd h (by simp [extract_with_ocr])
    | convertErr m => exact absurd h (by simp [extract_with_ocr])
    | readErr t m => exact mkPages_spec t i h
    | ok t => exact mkPages_spec t i h

/-- C10 witness: the invariant at a concrete one-page result. -/
theorem claim_C10_witness :
    ((extract_with_pymupdf (.ok ["ab"] none)).pages.get ⟨0, by decide⟩).page = 1 ∧
    ((extract_with_pymupdf (.ok ["ab"] none)).pages.get ⟨0, by decide⟩).char_count =
      ((extract_with_pymupdf (.ok ["ab"] none)).pages.get ⟨0, by decide⟩).text.length := by
  have h := (claim_C10 (.ok ["ab"] none) (.openErr "e") (.ok ["ab"]) 0).1 (by decide)
  exact h

end PdfCompare
